import Mathlib

/-!
Verification of the connection-lifecycle core of the MotherDuck MCP server
(`src/mcp_server_motherduck/database.py`), shallowly embedded in Lean.

The embedding covers:
* `DatabaseClient._resolve_db_path_type` (target resolution, credential
  handling, saas mode) and the single-attach augmentation performed in
  `DatabaseClient.__init__`;
* `DatabaseClient._health_check` (interval-gated health probing);
* `DatabaseClient._ensure_connection` (close-stale-handle plus bounded-retry
  reconnection with exponential backoff);
* `DatabaseClient._execute` / `DatabaseClient.query` (query submission,
  ephemeral-handle release, uniform error wrapping) and the FastMCP facade
  `query` tool.

Engine effects (`duckdb.connect`, `conn.execute`) are modelled by explicit
outcome oracles passed as arguments; wall-clock time by a natural-number
timestamp; connection handles by natural-number identifiers.
-/

/-- Character-list test that `p` is an initial segment of `l`
(models Python `str.startswith` and substring search steps). -/
def leadsWith : List Char → List Char → Bool
  | [], _ => true
  | _ :: _, [] => false
  | a :: as, b :: bs => if a = b then leadsWith as bs else false

/-- Number of positions of `s` at which `pat` occurs (occurrences may
overlap; for nonempty `pat` this counts exactly the match positions). -/
def countOcc (pat : List Char) : List Char → Nat
  | [] => if pat = [] then 1 else 0
  | c :: rest => (if leadsWith pat (c :: rest) then 1 else 0) + countOcc pat rest

/-- String-level wrapper of `leadsWith`: models Python `s.startswith(pat)`. -/
def strStarts (pat s : String) : Bool :=
  leadsWith pat.data s.data

/-- Number of occurrences of the string `pat` inside `s`. -/
def occurrences (pat s : String) : Nat :=
  countOcc pat.data s.data

/-- Models Python `"?" in s`. -/
def containsQM (s : String) : Bool :=
  s.data.any fun c => decide (c = '?')

/-- The two `db_type` values computed by `_resolve_db_path_type`. -/
inductive DBType
  | duckdb
  | motherduck
  deriving DecidableEq

/-- Python truthiness of an optional string (`if s:`): `None` and the empty
string are falsy.  This is applied both to the explicit `motherduck_token`
argument and to the `os.getenv("motherduck_token")` result. -/
def truthy : Option String → Option String
  | none => none
  | some s => if s = "" then none else some s

/-- The error message raised by `_resolve_db_path_type` when the target uses
the `md:` scheme and no MotherDuck token is available (database.py 165-168). -/
def missingTokenMsg : String :=
  "Please set the `motherduck_token` as an environment variable or pass it as an argument with `--motherduck-token` when using `md:` as db_path."

/-- Shallow embedding of `DatabaseClient._resolve_db_path_type`
(database.py 138-173).  `env_token` is the value of the `motherduck_token`
environment variable (`none` when unset). -/
def resolve_db_path_type (db_path : String) (motherduck_token env_token : Option String)
    (saas_mode : Bool) : Except String (String × DBType) :=
  if strStarts "md:" db_path then
    match truthy motherduck_token with
    | some tok =>
      if saas_mode then
        .ok (db_path ++ "?motherduck_token=" ++ tok ++ "&saas_mode=true", DBType.motherduck)
      else
        .ok (db_path ++ "?motherduck_token=" ++ tok, DBType.motherduck)
    | none =>
      match truthy env_token with
      | some tok => .ok (db_path ++ "?motherduck_token=" ++ tok, DBType.motherduck)
      | none => .error missingTokenMsg
  else if db_path = ":memory:" then
    .ok (db_path, DBType.duckdb)
  else
    .ok (db_path, DBType.duckdb)

/-- The single-attach augmentation performed in `DatabaseClient.__init__`
(database.py 48-52) on MotherDuck paths: append `single_attach=true` with
`&` if the path already has a query component (contains `?`), else with `?`. -/
def augment_single_attach (p : String) : String :=
  if containsQM p then p ++ "&single_attach=true" else p ++ "?single_attach=true"

/-- The connection string and database type held by the client once
`__init__` finishes: `_resolve_db_path_type` followed by the
MotherDuck-only single-attach augmentation (database.py 25-27 and 45-52). -/
def constructor_db_path (db_path : String) (motherduck_token env_token : Option String)
    (saas_mode : Bool) : Except String (String × DBType) :=
  match resolve_db_path_type db_path motherduck_token env_token saas_mode with
  | .error e => .error e
  | .ok (p, t) =>
    if t = DBType.motherduck then .ok (augment_single_attach p, t) else .ok (p, t)

/-- `String.append` concatenates the underlying character lists. -/
theorem data_append (x y : String) : (x ++ y).data = x.data ++ y.data := rfl

theorem leadsWith_append_cons (c : Char) (bs : List Char) :
    ∀ (pat t : List Char), c ∉ pat → leadsWith pat (t ++ c :: bs) = leadsWith pat t
  | [], _, _ => rfl
  | p :: ps, [], hc => by
    have hpc : p ≠ c := fun h => hc (by rw [← h]; exact List.mem_cons_self p ps)
    simp [leadsWith, hpc]
  | p :: ps, x :: xs, hc => by
    have hc2 : c ∉ ps := fun h => hc (List.mem_cons_of_mem _ h)
    simp only [List.cons_append, leadsWith, List.append_eq]
    rw [leadsWith_append_cons c bs ps xs hc2]

theorem countOcc_append_cons (c : Char) (bs : List Char) :
    ∀ (pat a : List Char), pat ≠ [] → c ∉ pat →
      countOcc pat (a ++ c :: bs) = countOcc pat a + countOcc pat (c :: bs)
  | pat, [], hne, _ => by simp [countOcc, hne]
  | pat, x :: xs, hne, hc => by
    have hx : leadsWith pat (x :: (xs ++ c :: bs)) = leadsWith pat (x :: xs) := by
      have := leadsWith_append_cons c bs pat (x :: xs) hc
      simpa using this
    simp only [List.cons_append, countOcc, List.append_eq, hx]
    rw [countOcc_append_cons c bs pat xs hne hc]
    simp only [countOcc]
    omega

theorem countOcc_head_block (p0 : Char) (ps b : List Char) :
    ∀ a : List Char, p0 ∉ a → countOcc (p0 :: ps) (a ++ b) = countOcc (p0 :: ps) b
  | [], _ => rfl
  | x :: xs, h => by
    have hpx : p0 ≠ x := fun hip => h (by rw [hip]; exact List.mem_cons_self x xs)
    have h2 : p0 ∉ xs := fun hm => h (List.mem_cons_of_mem _ hm)
    simp only [List.cons_append, countOcc, leadsWith, hpx, if_false, List.append_eq]
    rw [countOcc_head_block p0 ps b xs h2]
    simp

theorem countOcc_le_append (pat t : List Char) :
    ∀ a : List Char, countOcc pat t ≤ countOcc pat (a ++ t)
  | [] => Nat.le_refl _
  | x :: xs => by
    simp only [List.cons_append, countOcc, List.append_eq]
    have := countOcc_le_append pat t xs
    omega

theorem leadsWith_self_append : ∀ (pat b : List Char), leadsWith pat (pat ++ b) = true
  | [], _ => rfl
  | p :: ps, b => by
    simp only [List.cons_append, leadsWith, if_pos rfl]
    exact leadsWith_self_append ps b

theorem countOcc_self_append (pat b : List Char) (h : pat ≠ []) :
    0 < countOcc pat (pat ++ b) := by
  cases pat with
  | nil => exact absurd rfl h
  | cons p ps =>
    have h1 : leadsWith (p :: ps) (p :: (ps ++ b)) = true := by
      have := leadsWith_self_append (p :: ps) b
      simpa using this
    simp only [List.cons_append, countOcc, List.append_eq, h1, if_true]
    omega

theorem countOcc_self (pat : List Char) (h : pat ≠ []) : 0 < countOcc pat pat := by
  have := countOcc_self_append pat [] h
  simpa using this

theorem countOcc_sandwich (pat a b : List Char) (h : pat ≠ []) :
    0 < countOcc pat (a ++ (pat ++ b)) :=
  lt_of_lt_of_le (countOcc_self_append pat b h) (countOcc_le_append pat (pat ++ b) a)

theorem countOcc_suffix_pos (pat a : List Char) (h : pat ≠ []) :
    0 < countOcc pat (a ++ pat) :=
  lt_of_lt_of_le (countOcc_self pat h) (countOcc_le_append pat pat a)

theorem containsQM_of_mem (s : String) (h : ('?' : Char) ∈ s.data) :
    containsQM s = true := by
  simp only [containsQM, List.any_eq_true]
  exact ⟨'?', h, by simp⟩

/-- The resolved MotherDuck connection string splits, at character level, as
the raw target, a `?`, the literal `motherduck_token=`, and the token. -/
theorem resolved_data_split (db tok : String) :
    (db ++ "?motherduck_token=" ++ tok).data =
      db.data ++ '?' :: ("motherduck_token=".data ++ tok.data) := by
  have hA : "?motherduck_token=".data = '?' :: "motherduck_token=".data := rfl
  simp [data_append, hA, List.append_assoc, List.cons_append]

/-- The token occurs in any extension of the resolved connection string. -/
theorem resolved_tok_sandwich (db tok T : String) (htokne : tok.data ≠ []) :
    0 < countOcc tok.data ((db ++ "?motherduck_token=" ++ tok).data ++ T.data) := by
  have hsplit : (db ++ "?motherduck_token=" ++ tok).data ++ T.data =
      (db.data ++ '?' :: "motherduck_token=".data) ++ (tok.data ++ T.data) := by
    rw [resolved_data_split]
    simp [List.append_assoc, List.cons_append]
  rw [hsplit]
  exact countOcc_sandwich tok.data _ T.data htokne

/-- When neither the raw target nor the token contains the single-attach
directive, neither does the resolved (pre-augmentation) connection string:
the directive cannot straddle the `?motherduck_token=` separator because
`?` does not occur in it and `s` does not occur in the separator. -/
theorem count_sa_resolved (db tok : String)
    (hdb : occurrences "single_attach=true" db = 0)
    (htok : occurrences "single_attach=true" tok = 0) :
    countOcc "single_attach=true".data (db ++ "?motherduck_token=" ++ tok).data = 0 := by
  simp only [occurrences] at hdb htok
  rw [resolved_data_split]
  have hne : "single_attach=true".data ≠ [] := by decide
  have hq : ('?' : Char) ∉ "single_attach=true".data := by decide
  rw [countOcc_append_cons '?' _ _ _ hne hq, hdb]
  have hpat : "single_attach=true".data = 's' :: "ingle_attach=true".data := rfl
  have hs : ('s' : Char) ∉ ('?' :: "motherduck_token=".data) := by decide
  have h2 : countOcc "single_attach=true".data
      ('?' :: ("motherduck_token=".data ++ tok.data)) =
      countOcc "single_attach=true".data tok.data := by
    rw [hpat]
    have := countOcc_head_block 's' "ingle_attach=true".data tok.data
      ('?' :: "motherduck_token=".data) hs
    simpa using this
  rw [h2, htok]

/-- Appending a tail that starts with `&` and contains the single-attach
directive exactly once yields exactly one directive occurrence overall. -/
theorem count_sa_aug (db tok : String) (tl : List Char)
    (h0 : countOcc "single_attach=true".data (db ++ "?motherduck_token=" ++ tok).data = 0)
    (htl : countOcc "single_attach=true".data ('&' :: tl) = 1) :
    countOcc "single_attach=true".data
      ((db ++ "?motherduck_token=" ++ tok).data ++ '&' :: tl) = 1 := by
  have hne : "single_attach=true".data ≠ [] := by decide
  have hamp : ('&' : Char) ∉ "single_attach=true".data := by decide
  rw [countOcc_append_cons '&' tl _ _ hne hamp, h0, htl]

/-- The resolved connection string always has a query component. -/
theorem containsQM_resolved (db tok T : String) :
    containsQM (db ++ "?motherduck_token=" ++ tok ++ T) = true := by
  apply containsQM_of_mem
  simp only [data_append, List.mem_append, resolved_data_split]
  have h : ('?' : Char) ∈ ('?' :: ("motherduck_token=".data ++ tok.data)) :=
    List.mem_cons_self _ _
  tauto

/-- C9: a target that does not use the `md:` scheme (any local file path or
the `:memory:` sentinel) resolves to the local engine with the connection
string equal to the raw target, needs no credential, and never fails — for
every token argument, environment state and saas flag. -/
theorem C9_local_targets (db_path : String) (motherduck_token env_token : Option String)
    (saas_mode : Bool) (h : strStarts "md:" db_path = false) :
    constructor_db_path db_path motherduck_token env_token saas_mode =
      .ok (db_path, DBType.duckdb) := by
  simp [constructor_db_path, resolve_db_path_type, h]

/-- Witness for `C9_local_targets` at the in-memory sentinel with the
environment token set. -/
theorem C9_local_targets_witness :
    constructor_db_path ":memory:" none (some "token_set") false =
      .ok (":memory:", DBType.duckdb) :=
  C9_local_targets ":memory:" none (some "token_set") false (by decide)

/-- C3: resolving target `md:` with explicit credential `tok123` yields
`md:?motherduck_token=tok123&single_attach=true` when `saas_mode` is false
and `md:?motherduck_token=tok123&saas_mode=true&single_attach=true` when it
is true, for every environment state; and the constructor appends
`single_attach=true` with `&` when a query component already exists in the
resolved path, else with `?`. -/
theorem C3_md_end_to_end :
    (∀ env_token : Option String,
      constructor_db_path "md:" (some "tok123") env_token false =
        .ok ("md:?motherduck_token=tok123&single_attach=true", DBType.motherduck)) ∧
    (∀ env_token : Option String,
      constructor_db_path "md:" (some "tok123") env_token true =
        .ok ("md:?motherduck_token=tok123&saas_mode=true&single_attach=true",
          DBType.motherduck)) ∧
    (∀ p : String, augment_single_attach p =
      if containsQM p then p ++ "&single_attach=true" else p ++ "?single_attach=true") :=
  ⟨fun _ => rfl, fun _ => rfl, fun _ => rfl⟩

/-- C2 counterexample: resolving `md:` with `saas_mode = true` and the
credential coming from the environment variable (no explicit argument)
produces a connection string with the token but without `saas_mode=true` —
the environment branch of `_resolve_db_path_type` ignores `saas_mode`. -/
theorem C2_counterexample :
    resolve_db_path_type "md:" none (some "envtok") true =
      .ok ("md:?motherduck_token=envtok", DBType.motherduck) ∧
    occurrences "saas_mode=true" "md:?motherduck_token=envtok" = 0 :=
  ⟨rfl, by decide⟩

/-- C2 (amended): for every `md:` target resolved with `saas_mode = true`,
if the credential comes from the explicit (nonempty) argument the resolved
connection string contains both `motherduck_token=<credential>` and
`saas_mode=true`; if the credential comes only from the environment
variable, the resolved string embeds the token but no saas-mode parameter
is appended. -/
theorem C2_saas_mode_embedding (db_path tok : String) (env_token : Option String)
    (hmd : strStarts "md:" db_path = true) (htok : tok ≠ "") :
    (resolve_db_path_type db_path (some tok) env_token true =
      .ok (db_path ++ "?motherduck_token=" ++ tok ++ "&saas_mode=true",
        DBType.motherduck)) ∧
    0 < occurrences ("motherduck_token=" ++ tok)
        (db_path ++ "?motherduck_token=" ++ tok ++ "&saas_mode=true") ∧
    0 < occurrences "saas_mode=true"
        (db_path ++ "?motherduck_token=" ++ tok ++ "&saas_mode=true") ∧
    (∀ etok, truthy env_token = some etok →
      resolve_db_path_type db_path none env_token true =
        .ok (db_path ++ "?motherduck_token=" ++ etok, DBType.motherduck)) := by
  refine ⟨?_, ?_, ?_, ?_⟩
  · simp [resolve_db_path_type, truthy, hmd, htok]
  · simp only [occurrences]
    have hP : ("motherduck_token=" ++ tok).data ≠ [] := by
      have h1 : ("motherduck_token=" ++ tok).data =
          'm' :: ("otherduck_token=".data ++ tok.data) := rfl
      rw [h1]
      exact List.cons_ne_nil _ _
    have hS : (db_path ++ "?motherduck_token=" ++ tok ++ "&saas_mode=true").data =
        (db_path.data ++ ['?']) ++
          (("motherduck_token=" ++ tok).data ++ "&saas_mode=true".data) := by
      have hA : "?motherduck_token=".data = '?' :: "motherduck_token=".data := rfl
      simp [data_append, hA, List.append_assoc, List.cons_append, List.singleton_append]
    rw [hS]
    exact countOcc_sandwich _ _ _ hP
  · simp only [occurrences]
    have hpat : "saas_mode=true".data ≠ [] := by decide
    have hS : (db_path ++ "?motherduck_token=" ++ tok ++ "&saas_mode=true").data =
        (db_path.data ++ ("?motherduck_token=".data ++ (tok.data ++ ['&']))) ++
          "saas_mode=true".data := by
      have hB : "&saas_mode=true".data = ['&'] ++ "saas_mode=true".data := rfl
      simp [data_append, hB, List.append_assoc, List.cons_append, List.singleton_append]
    rw [hS]
    exact countOcc_suffix_pos _ _ hpat
  · intro etok hEnv
    have h0 : truthy none = none := rfl
    simp [resolve_db_path_type, hmd, h0, hEnv]

/-- Witness for `C2_saas_mode_embedding` at target `md:my_db` with explicit
credential `tok1`. -/
theorem C2_saas_mode_embedding_witness :
    resolve_db_path_type "md:my_db" (some "tok1") none true =
      .ok ("md:my_db?motherduck_token=tok1&saas_mode=true", DBType.motherduck) ∧
    0 < occurrences ("motherduck_token=" ++ "tok1")
        ("md:my_db" ++ "?motherduck_token=" ++ "tok1" ++ "&saas_mode=true") ∧
    0 < occurrences "saas_mode=true"
        ("md:my_db" ++ "?motherduck_token=" ++ "tok1" ++ "&saas_mode=true") := by
  have h := C2_saas_mode_embedding "md:my_db" "tok1" none (by decide) (by decide)
  exact ⟨h.1, h.2.1, h.2.2.1⟩

/-- The resolved connection string has a query component (no trailing part). -/
theorem containsQM_resolved0 (db tok : String) :
    containsQM (db ++ "?motherduck_token=" ++ tok) = true := by
  apply containsQM_of_mem
  simp only [resolved_data_split, List.mem_append]
  have h : ('?' : Char) ∈ ('?' :: ("motherduck_token=".data ++ tok.data)) :=
    List.mem_cons_self _ _
  tauto

/-- C4 counterexample: a remote target that already contains the
single-attach directive yields a connection string containing the directive
twice, refuting the "exactly once" part of the claim as universally stated. -/
theorem C4_counterexample :
    constructor_db_path "md:?single_attach=true" (some "tok") none false =
      .ok ("md:?single_attach=true?motherduck_token=tok&single_attach=true",
        DBType.motherduck) ∧
    occurrences "single_attach=true"
      "md:?single_attach=true?motherduck_token=tok&single_attach=true" = 2 :=
  ⟨rfl, by decide⟩

set_option maxRecDepth 8192 in
/-- C4 (amended): for every `md:` target, resolution without any credential
(explicit argument falsy and environment variable falsy) fails with the
configuration error naming `motherduck_token` and produces no descriptor;
the explicit argument is preferred over the environment; and with a
credential (explicit or environment-sourced) the constructed connection
string contains that credential and — provided neither the raw target nor
the credential already contains the single-attach directive — contains the
directive exactly once. -/
theorem C4_remote_credential_policy (db_path tok : String) (env_token : Option String)
    (saas_mode : Bool) (hmd : strStarts "md:" db_path = true) :
    (truthy env_token = none →
      constructor_db_path db_path none env_token saas_mode = .error missingTokenMsg) ∧
    (truthy env_token = none →
      constructor_db_path db_path (some "") env_token saas_mode = .error missingTokenMsg) ∧
    0 < occurrences "motherduck_token" missingTokenMsg ∧
    (tok ≠ "" → resolve_db_path_type db_path (some tok) env_token saas_mode =
      resolve_db_path_type db_path (some tok) none saas_mode) ∧
    (tok ≠ "" → occurrences "single_attach=true" db_path = 0 →
      occurrences "single_attach=true" tok = 0 →
      ∃ s, constructor_db_path db_path (some tok) env_token saas_mode =
          .ok (s, DBType.motherduck) ∧
        0 < occurrences tok s ∧ occurrences "single_attach=true" s = 1) ∧
    (tok ≠ "" → occurrences "single_attach=true" db_path = 0 →
      occurrences "single_attach=true" tok = 0 →
      ∃ s, constructor_db_path db_path none (some tok) saas_mode =
          .ok (s, DBType.motherduck) ∧
        0 < occurrences tok s ∧ occurrences "single_attach=true" s = 1) := by
  have h0 : truthy none = none := rfl
  refine ⟨?_, ?_, ?_, ?_, ?_, ?_⟩
  · intro hEnvNone
    simp [constructor_db_path, resolve_db_path_type, hmd, h0, hEnvNone]
  · intro hEnvNone
    have h1 : truthy (some "") = none := rfl
    simp [constructor_db_path, resolve_db_path_type, hmd, h1, hEnvNone]
  · decide
  · intro htok
    have ht : truthy (some tok) = some tok := by simp [truthy, htok]
    simp [resolve_db_path_type, hmd, ht]
  · intro htok hdb0 htok0
    have ht : truthy (some tok) = some tok := by simp [truthy, htok]
    have htokne : tok.data ≠ [] :=
      fun hnil => htok (String.ext (by rw [hnil]))
    cases saas_mode with
    | false =>
      have hq := containsQM_resolved0 db_path tok
      refine ⟨(db_path ++ "?motherduck_token=" ++ tok) ++ "&single_attach=true",
        ?_, ?_, ?_⟩
      · simp [constructor_db_path, resolve_db_path_type, hmd, ht,
          augment_single_attach, hq]
      · simp only [occurrences, data_append]
        exact resolved_tok_sandwich db_path tok "&single_attach=true" htokne
      · have hB : "&single_attach=true".data = '&' :: "single_attach=true".data := rfl
        simp only [occurrences, data_append, hB]
        exact count_sa_aug db_path tok _ (count_sa_resolved db_path tok hdb0 htok0)
          (by decide)
    | true =>
      have hq := containsQM_resolved db_path tok "&saas_mode=true"
      have hT : (db_path ++ "?motherduck_token=" ++ tok ++ "&saas_mode=true") ++
          "&single_attach=true" =
          (db_path ++ "?motherduck_token=" ++ tok) ++
            "&saas_mode=true&single_attach=true" := by
        apply String.ext
        simp [data_append, List.append_assoc]
      refine ⟨(db_path ++ "?motherduck_token=" ++ tok) ++
        "&saas_mode=true&single_attach=true", ?_, ?_, ?_⟩
      · simp [constructor_db_path, resolve_db_path_type, hmd, ht,
          augment_single_attach, hq]
        exact hT
      · simp only [occurrences, data_append]
        exact resolved_tok_sandwich db_path tok "&saas_mode=true&single_attach=true"
          htokne
      · have hB : "&saas_mode=true&single_attach=true".data =
            '&' :: "saas_mode=true&single_attach=true".data := rfl
        simp only [occurrences, data_append, hB]
        exact count_sa_aug db_path tok _ (count_sa_resolved db_path tok hdb0 htok0)
          (by decide)
  · intro htok hdb0 htok0
    have ht : truthy (some tok) = some tok := by simp [truthy, htok]
    have htokne : tok.data ≠ [] :=
      fun hnil => htok (String.ext (by rw [hnil]))
    have hq := containsQM_resolved0 db_path tok
    refine ⟨(db_path ++ "?motherduck_token=" ++ tok) ++ "&single_attach=true",
      ?_, ?_, ?_⟩
    · simp [constructor_db_path, resolve_db_path_type, hmd, ht, h0,
        augment_single_attach, hq]
    · simp only [occurrences, data_append]
      exact resolved_tok_sandwich db_path tok "&single_attach=true" htokne
    · have hB : "&single_attach=true".data = '&' :: "single_attach=true".data := rfl
      simp only [occurrences, data_append, hB]
      exact count_sa_aug db_path tok _ (count_sa_resolved db_path tok hdb0 htok0)
        (by decide)

/-- Witness for `C4_remote_credential_policy`: the bare `md:` target with no
credential from either source fails with the error naming the token. -/
theorem C4_remote_credential_policy_witness :
    constructor_db_path "md:" none none false = .error missingTokenMsg ∧
    0 < occurrences "motherduck_token" missingTokenMsg := by
  have h := C4_remote_credential_policy "md:" "tok123" none false (by decide)
  exact ⟨h.1 rfl, h.2.2.1⟩

/-- The client's mutable state as set up by `DatabaseClient.__init__`
(database.py 24-55): resolved path and type, read-only flag, the persistent
handle (`none` before connection and permanently in local read-only mode),
and the health-check/retry settings.  Handles are identifiers (`Nat`). -/
structure ClientState where
  db_path : String
  db_type : DBType
  read_only : Bool
  conn : Option Nat
  last_health_check : Nat
  health_check_interval : Nat
  max_retries : Nat
  retry_delay : Nat

/-- The constructor's fixed settings (database.py 34-39):
`_last_health_check = 0`, `_health_check_interval = 30`,
`_max_retries = 3`, `_retry_delay = 1`. -/
def mk_client_state (db_path : String) (db_type : DBType) (read_only : Bool)
    (conn : Option Nat) : ClientState :=
  { db_path := db_path, db_type := db_type, read_only := read_only, conn := conn,
    last_health_check := 0, health_check_interval := 30, max_retries := 3,
    retry_delay := 1 }

/-- Shallow embedding of `DatabaseClient._initialize_connection`
(database.py 57-85): in local read-only mode a probe connection is opened,
validated with `SELECT 1` and closed, and no persistent handle is kept
(`None` is returned); otherwise the freshly opened handle is returned.
`engineConnect` is the combined outcome of `duckdb.connect` (plus the probe
query in the read-only branch): `.error` when it raises. -/
def init_conn (db_type : DBType) (read_only : Bool)
    (engineConnect : Except String Nat) : Except String (Option Nat) :=
  match engineConnect with
  | .error e => .error e
  | .ok hdl =>
    if db_type = DBType.duckdb ∧ read_only = true then .ok none else .ok (some hdl)

/-- Result of `_health_check`: reported healthiness, whether a probe query
(`SELECT 1`) was actually submitted to the engine, and the updated state. -/
structure HealthResult where
  healthy : Bool
  probed : Bool
  st : ClientState

/-- Shallow embedding of `DatabaseClient._health_check` (database.py
87-102).  `now` models `time.time()`; `probeOk` tells whether
`self.conn.execute("SELECT 1")` would succeed on the current handle.
With no persistent handle the check reports healthy without probing; within
the interval window it reports healthy without probing; otherwise it probes
and, only on success, records `now` as the new last-checked time. -/
def health_check (st : ClientState) (now : Nat) (probeOk : Bool) : HealthResult :=
  match st.conn with
  | none => ⟨true, false, st⟩
  | some _ =>
    if now - st.last_health_check < st.health_check_interval then ⟨true, false, st⟩
    else if probeOk then ⟨true, true, { st with last_health_check := now }⟩
    else ⟨false, true, st⟩

/-- Result of the reconnection loop of `_ensure_connection` (database.py
123-134): whether the loop finished normally (`.ok`) or raised, the value
`self.conn` holds when the loop leaves, the number of
`_initialize_connection` attempts made, and the backoff sleeps performed,
in order. -/
structure LoopResult where
  outcome : Except String Unit
  conn : Option Nat
  attempts : Nat
  sleeps : List Nat

/-- The body of `for attempt in range(max_retries)` with `fuel` iterations
remaining.  `connect n` is the outcome of `self._initialize_connection()`
on attempt `n`; a `.ok none` result (the read-only branch returning `None`,
unreachable on the persistent path) assigns `self.conn = None`, does not
break, and is retried without sleeping — mirroring the Python loop.  An
exception sleeps `retry_delay * 2 ** attempt` and retries, except on the
last attempt, where it re-raises. -/
def reconnect_go (connect : Nat → Except String (Option Nat)) (delay maxR : Nat) :
    Nat → Nat → Option Nat → LoopResult
  | 0, _, conn0 => ⟨.ok (), conn0, 0, []⟩
  | fuel + 1, attempt, conn0 =>
    match connect attempt with
    | .ok newConn =>
      if newConn.isSome then ⟨.ok (), newConn, 1, []⟩
      else
        let r := reconnect_go connect delay maxR fuel (attempt + 1) newConn
        ⟨r.outcome, r.conn, r.attempts + 1, r.sleeps⟩
    | .error e =>
      if attempt < maxR - 1 then
        let r := reconnect_go connect delay maxR fuel (attempt + 1) conn0
        ⟨r.outcome, r.conn, r.attempts + 1, delay * 2 ^ attempt :: r.sleeps⟩
      else ⟨.error e, conn0, 1, []⟩

/-- The whole reconnection loop of `_ensure_connection`, started at attempt
0 with `max_retries` iterations available. -/
def reconnect_loop (connect : Nat → Except String (Option Nat)) (delay maxR : Nat)
    (conn0 : Option Nat) : LoopResult :=
  reconnect_go connect delay maxR maxR 0 conn0

/-- Observable actions of one `_ensure_connection` call. -/
structure EnsureTrace where
  openedEphemeral : Bool
  probed : Bool
  closedStale : Bool
  attempts : Nat
  sleeps : List Nat

/-- Shallow embedding of `DatabaseClient._ensure_connection` (database.py
104-136).  With no persistent handle, a fresh short-lived connection is
returned and the state is untouched.  Otherwise the health check runs and,
on failure, the stale handle is closed (close errors are swallowed by the
bare `except: pass`; the trace records only that close was attempted) and
the bounded-retry loop runs, assigning `self.conn` as it goes.
`ephConnect` is the outcome of the short-lived `duckdb.connect`;
`connect n` the outcome of `_initialize_connection` on attempt `n`. -/
def ensure_connection (st : ClientState) (now : Nat) (probeOk : Bool)
    (ephConnect : Except String Nat) (connect : Nat → Except String (Option Nat)) :
    Except String (Option Nat) × ClientState × EnsureTrace :=
  match st.conn with
  | none =>
    match ephConnect with
    | .ok h => (.ok (some h), st, ⟨true, false, false, 0, []⟩)
    | .error e => (.error e, st, ⟨false, false, false, 0, []⟩)
  | some _ =>
    let hr := health_check st now probeOk
    if hr.healthy then
      (.ok hr.st.conn, hr.st, ⟨false, hr.probed, false, 0, []⟩)
    else
      let r := reconnect_loop connect st.retry_delay st.max_retries hr.st.conn
      match r.outcome with
      | .ok _ =>
        (.ok r.conn, { hr.st with conn := r.conn },
          ⟨false, hr.probed, true, r.attempts, r.sleeps⟩)
      | .error e =>
        (.error e, { hr.st with conn := r.conn },
          ⟨false, hr.probed, true, r.attempts, r.sleeps⟩)

/-- C5: probing is gated on the interval.  (a) Once the interval has
elapsed, a health check with a succeeding probe submits the probe and
records its timestamp as the new last-checked time.  (b) After a successful
probe at time `t`, any health check at time `u` with `u - t` below the
interval reports healthy without submitting a probe, whatever the engine
would answer.  (c) A probe is only ever submitted when the interval has
elapsed since the last recorded check. -/
theorem C5_health_probe_gating (st : ClientState) (h t : Nat)
    (hconn : st.conn = some h) :
    (st.health_check_interval ≤ t - st.last_health_check →
      health_check st t true = ⟨true, true, { st with last_health_check := t }⟩) ∧
    (∀ probeOk u, u - t < st.health_check_interval →
      health_check { st with last_health_check := t } u probeOk =
        ⟨true, false, { st with last_health_check := t }⟩) ∧
    (∀ u probeOk, (health_check st u probeOk).probed = true →
      st.health_check_interval ≤ u - st.last_health_check) := by
  refine ⟨?_, ?_, ?_⟩
  · intro hel
    simp [health_check, hconn, Nat.not_lt.mpr hel]
  · intro probeOk u hlt
    have hconn2 : ({ st with last_health_check := t } : ClientState).conn = some h :=
      hconn
    simp [health_check, hconn2, hlt]
    cases st.conn <;> rfl
  · intro u probeOk hp
    by_contra hnle
    simp [health_check, hconn, Nat.not_le.mp hnle] at hp

/-- Witness for `C5_health_probe_gating` on a freshly constructed remote
client probed at time 50. -/
theorem C5_health_probe_gating_witness :
    health_check
      (mk_client_state "md:?motherduck_token=tok123&single_attach=true"
        DBType.motherduck false (some 7)) 50 true =
      ⟨true, true,
        { mk_client_state "md:?motherduck_token=tok123&single_attach=true"
            DBType.motherduck false (some 7) with last_health_check := 50 }⟩ :=
  (C5_health_probe_gating
    (mk_client_state "md:?motherduck_token=tok123&single_attach=true"
      DBType.motherduck false (some 7)) 7 50 rfl).1 (by decide)

/-- C1: on a failed health check (persistent handle present, interval
elapsed, probe failing), `_ensure_connection` closes the stale handle
(close errors ignored) and retries `_initialize_connection` up to
`max_retries = 3` times.  The first successful attempt returns the new
handle after exactly that many attempts, with backoff sleeps
`retry_delay * 2 ^ attempt` (1s then 2s) between attempts; if all 3
attempts fail, the error of the last attempt propagates after exactly 3
attempts and sleeps `[1, 2]`, the stale handle reference left in place. -/
theorem C1_reconnection_policy (st : ClientState) (h now : Nat)
    (eph : Except String Nat) (connect : Nat → Except String (Option Nat))
    (hconn : st.conn = some h) (hmax : st.max_retries = 3)
    (hdelay : st.retry_delay = 1)
    (helapsed : st.health_check_interval ≤ now - st.last_health_check) :
    (∀ h1, connect 0 = .ok (some h1) →
      ensure_connection st now false eph connect =
        (.ok (some h1), { st with conn := some h1 }, ⟨false, true, true, 1, []⟩)) ∧
    (∀ e0 h1, connect 0 = .error e0 → connect 1 = .ok (some h1) →
      ensure_connection st now false eph connect =
        (.ok (some h1), { st with conn := some h1 }, ⟨false, true, true, 2, [1]⟩)) ∧
    (∀ e0 e1 h1, connect 0 = .error e0 → connect 1 = .error e1 →
      connect 2 = .ok (some h1) →
      ensure_connection st now false eph connect =
        (.ok (some h1), { st with conn := some h1 }, ⟨false, true, true, 3, [1, 2]⟩)) ∧
    (∀ e0 e1 e2, connect 0 = .error e0 → connect 1 = .error e1 →
      connect 2 = .error e2 →
      ensure_connection st now false eph connect =
        (.error e2, st, ⟨false, true, true, 3, [1, 2]⟩)) := by
  have hhc : health_check st now false = ⟨false, true, st⟩ := by
    simp [health_check, hconn, Nat.not_lt.mpr helapsed]
  refine ⟨?_, ?_, ?_, ?_⟩
  · intro h1 hc0
    simp [ensure_connection, hconn, hhc, hmax, hdelay, reconnect_loop, reconnect_go,
      hc0]
  · intro e0 h1 hc0 hc1
    simp [ensure_connection, hconn, hhc, hmax, hdelay, reconnect_loop, reconnect_go,
      hc0, hc1]
  · intro e0 e1 h1 hc0 hc1 hc2
    simp [ensure_connection, hconn, hhc, hmax, hdelay, reconnect_loop, reconnect_go,
      hc0, hc1, hc2]
  · intro e0 e1 e2 hc0 hc1 hc2
    simp [ensure_connection, hconn, hhc, hmax, hdelay, reconnect_loop, reconnect_go,
      hc0, hc1, hc2]
    rw [← hconn, ← hmax, ← hdelay]

/-- Witness for `C1_reconnection_policy`: every attempt fails, the third
failure propagates after sleeps of 1s and 2s. -/
theorem C1_reconnection_policy_witness :
    ensure_connection
      (mk_client_state "md:?motherduck_token=tok123&single_attach=true"
        DBType.motherduck false (some 7)) 100 false (.ok 0)
      (fun _ => .error "boom") =
      (.error "boom",
        mk_client_state "md:?motherduck_token=tok123&single_attach=true"
          DBType.motherduck false (some 7),
        ⟨false, true, true, 3, [1, 2]⟩) :=
  (C1_reconnection_policy
    (mk_client_state "md:?motherduck_token=tok123&single_attach=true"
      DBType.motherduck false (some 7)) 7 100 (.ok 0) (fun _ => .error "boom")
    rfl rfl rfl (by decide)).2.2.2 "boom" "boom" "boom" rfl rfl rfl

/-- C8: exhausting the reconnection retries is terminal only for the call
that discovered it.  The first `_ensure_connection` call propagates the
last attempt's error and leaves the client state unchanged (the stale
handle reference and last-checked time are kept); a subsequent call with
the interval still elapsed re-runs the health check (probe submitted), and
on a failing probe re-enters the full reconnection cycle, succeeding when
the engine is back. -/
theorem C8_failed_not_terminal (st : ClientState) (h h2 now1 now2 : Nat)
    (eph : Except String Nat)
    (connectFail connectOk : Nat → Except String (Option Nat))
    (e0 e1 e2 : String)
    (hconn : st.conn = some h) (hmax : st.max_retries = 3)
    (hdelay : st.retry_delay = 1)
    (hel1 : st.health_check_interval ≤ now1 - st.last_health_check)
    (hel2 : st.health_check_interval ≤ now2 - st.last_health_check)
    (hf0 : connectFail 0 = .error e0) (hf1 : connectFail 1 = .error e1)
    (hf2 : connectFail 2 = .error e2)
    (hok : connectOk 0 = .ok (some h2)) :
    ensure_connection st now1 false eph connectFail =
      (.error e2, st, ⟨false, true, true, 3, [1, 2]⟩) ∧
    ensure_connection st now2 false eph connectOk =
      (.ok (some h2), { st with conn := some h2 }, ⟨false, true, true, 1, []⟩) := by
  constructor
  · have hhc : health_check st now1 false = ⟨false, true, st⟩ := by
      simp [health_check, hconn, Nat.not_lt.mpr hel1]
    simp [ensure_connection, hconn, hhc, hmax, hdelay, reconnect_loop, reconnect_go,
      hf0, hf1, hf2]
    rw [← hconn, ← hmax, ← hdelay]
  · have hhc : health_check st now2 false = ⟨false, true, st⟩ := by
      simp [health_check, hconn, Nat.not_lt.mpr hel2]
    simp [ensure_connection, hconn, hhc, hmax, hdelay, reconnect_loop, reconnect_go,
      hok]

/-- Witness for `C8_failed_not_terminal`: retries exhausted at time 100,
full cycle re-entered and succeeding at time 200. -/
theorem C8_failed_not_terminal_witness :
    ensure_connection
      (mk_client_state "md:?motherduck_token=tok123&single_attach=true"
        DBType.motherduck false (some 7)) 100 false (.ok 0)
      (fun _ => .error "down") =
      (.error "down",
        mk_client_state "md:?motherduck_token=tok123&single_attach=true"
          DBType.motherduck false (some 7),
        ⟨false, true, true, 3, [1, 2]⟩) ∧
    ensure_connection
      (mk_client_state "md:?motherduck_token=tok123&single_attach=true"
        DBType.motherduck false (some 7)) 200 false (.ok 0)
      (fun _ => .ok (some 9)) =
      (.ok (some 9),
        { mk_client_state "md:?motherduck_token=tok123&single_attach=true"
            DBType.motherduck false (some 7) with conn := some 9 },
        ⟨false, true, true, 1, []⟩) :=
  C8_failed_not_terminal
    (mk_client_state "md:?motherduck_token=tok123&single_attach=true"
      DBType.motherduck false (some 7)) 7 9 100 200 (.ok 0)
    (fun _ => .error "down") (fun _ => .ok (some 9)) "down" "down" "down"
    rfl rfl rfl (by decide) (by decide) rfl rfl rfl rfl

/-- Observable actions of one `_execute` call: whether a fresh ephemeral
connection was opened by `_ensure_connection`, the handles closed in the
`finally` block, and the SQL texts submitted to the engine. -/
structure ExecTrace where
  openedEphemeral : Bool
  closedHandles : List Nat
  submitted : List String

/-- Shallow embedding of `DatabaseClient._execute` (database.py 175-189).
`run hdl q` is the combined outcome of `conn.execute(query)`, `fetchall`
and the `tabulate` rendering (the rendering is an opaque external step).
After obtaining a handle the code reads `is_temp_conn = self.conn is None`
and, in `finally`, closes the handle exactly when that flag is set.  Were
`_ensure_connection` to return `None` (unreachable on both real paths),
`conn.execute` would raise an `AttributeError` before any submission. -/
def execute_q (st : ClientState) (now : Nat) (probeOk : Bool)
    (ephConnect : Except String Nat) (connect : Nat → Except String (Option Nat))
    (run : Nat → String → Except String String) (q : String) :
    Except String String × ClientState × ExecTrace :=
  match ensure_connection st now probeOk ephConnect connect with
  | (.error e, st2, tr) => (.error e, st2, ⟨tr.openedEphemeral, [], []⟩)
  | (.ok none, st2, tr) =>
    (.error "AttributeError: NoneType object has no attribute execute", st2,
      ⟨tr.openedEphemeral, [], []⟩)
  | (.ok (some hdl), st2, tr) =>
    let is_temp := st2.conn.isNone
    match run hdl q with
    | .ok out =>
      (.ok out, st2, ⟨tr.openedEphemeral, if is_temp then [hdl] else [], [q]⟩)
    | .error e =>
      (.error e, st2, ⟨tr.openedEphemeral, if is_temp then [hdl] else [], [q]⟩)

/-- Shallow embedding of `DatabaseClient.query` (database.py 191-195): any
exception from `_execute` is caught and re-raised exactly once as
`ValueError(f"❌ Error executing query: {e}")` — the client's uniform
error type with the original engine message embedded. -/
def client_query (st : ClientState) (now : Nat) (probeOk : Bool)
    (ephConnect : Except String Nat) (connect : Nat → Except String (Option Nat))
    (run : Nat → String → Except String String) (q : String) :
    Except String String × ClientState × ExecTrace :=
  match execute_q st now probeOk ephConnect connect run q with
  | (.ok out, st2, tr) => (.ok out, st2, tr)
  | (.error e, st2, tr) => (.error ("❌ Error executing query: " ++ e), st2, tr)

/-- Shallow embedding of the FastMCP `query` tool (fastmcp_server.py
55-70): it awaits `db_client.query` and wraps a raised error once more as
`ValueError(f"Error executing query: {str(e)}")` before crossing the
transport boundary. -/
def facade_query (st : ClientState) (now : Nat) (probeOk : Bool)
    (ephConnect : Except String Nat) (connect : Nat → Except String (Option Nat))
    (run : Nat → String → Except String String) (q : String) :
    Except String String :=
  match (client_query st now probeOk ephConnect connect run q).1 with
  | .ok out => .ok out
  | .error e => .error ("Error executing query: " ++ e)

/-- C6: in local read-only mode (no persistent handle), `_execute` opens a
fresh ephemeral connection for the call and closes exactly that handle
before returning, on the success path and on the engine-error path alike. -/
theorem C6_ephemeral_release (st : ClientState) (hdl now : Nat) (probeOk : Bool)
    (connect : Nat → Except String (Option Nat))
    (run : Nat → String → Except String String) (q : String)
    (hconn : st.conn = none) :
    (∀ out, run hdl q = .ok out →
      execute_q st now probeOk (.ok hdl) connect run q =
        (.ok out, st, ⟨true, [hdl], [q]⟩)) ∧
    (∀ e, run hdl q = .error e →
      execute_q st now probeOk (.ok hdl) connect run q =
        (.error e, st, ⟨true, [hdl], [q]⟩)) := by
  have hens : ensure_connection st now probeOk (.ok hdl) connect =
      (.ok (some hdl), st, ⟨true, false, false, 0, []⟩) := by
    simp [ensure_connection, hconn]
  constructor
  · intro out hrun
    simp [execute_q, hens, hrun, hconn]
  · intro e hrun
    simp [execute_q, hens, hrun, hconn]

/-- Witness for `C6_ephemeral_release`: a failing query on a read-only
local client still closes the ephemeral handle it opened. -/
theorem C6_ephemeral_release_witness :
    execute_q (mk_client_state "local.db" DBType.duckdb true none) 0 true (.ok 42)
      (fun _ => .ok none) (fun _ _ => .error "Binder Error") "SELECT x" =
      (.error "Binder Error", mk_client_state "local.db" DBType.duckdb true none,
        ⟨true, [42], ["SELECT x"]⟩) :=
  (C6_ephemeral_release (mk_client_state "local.db" DBType.duckdb true none) 42 0
    true (fun _ => .ok none) (fun _ _ => .error "Binder Error") "SELECT x" rfl).2
    "Binder Error" rfl

/-- C7: the public query operation submits the SQL text to the engine
verbatim and at most once (no splitting, no retry); an engine-level failure
is caught and re-raised exactly once as the uniform client error whose
message embeds the original engine message, and the facade wrapper
preserves that message across the transport boundary. -/
theorem C7_verbatim_uniform_error (st : ClientState) (now : Nat) (probeOk : Bool)
    (ephConnect : Except String Nat) (connect : Nat → Except String (Option Nat))
    (run : Nat → String → Except String String) (q : String) :
    (∀ s2, s2 ∈ (client_query st now probeOk ephConnect connect run q).2.2.submitted →
      s2 = q) ∧
    (client_query st now probeOk ephConnect connect run q).2.2.submitted.length ≤ 1 ∧
    (∀ hdl st2 tr e,
      ensure_connection st now probeOk ephConnect connect = (.ok (some hdl), st2, tr) →
      run hdl q = .error e →
      client_query st now probeOk ephConnect connect run q =
        (.error ("❌ Error executing query: " ++ e), st2,
          ⟨tr.openedEphemeral, if st2.conn.isNone then [hdl] else [], [q]⟩)) ∧
    (∀ hdl st2 tr e,
      ensure_connection st now probeOk ephConnect connect = (.ok (some hdl), st2, tr) →
      run hdl q = .error e →
      facade_query st now probeOk ephConnect connect run q =
        .error ("Error executing query: " ++ ("❌ Error executing query: " ++ e))) := by
  refine ⟨?_, ?_, ?_, ?_⟩
  · intro s2 hs2
    rcases hE : ensure_connection st now probeOk ephConnect connect with ⟨res, st2, tr⟩
    rcases res with e | oc
    · simp [client_query, execute_q, hE] at hs2
    · rcases oc with _ | hdl
      · simp [client_query, execute_q, hE] at hs2
      · rcases hR : run hdl q with e | out
        · simp [client_query, execute_q, hE, hR] at hs2
          exact hs2
        · simp [client_query, execute_q, hE, hR] at hs2
          exact hs2
  · rcases hE : ensure_connection st now probeOk ephConnect connect with ⟨res, st2, tr⟩
    rcases res with e | oc
    · simp [client_query, execute_q, hE]
    · rcases oc with _ | hdl
      · simp [client_query, execute_q, hE]
      · rcases hR : run hdl q with e | out <;> simp [client_query, execute_q, hE, hR]
  · intro hdl st2 tr e hE hR
    simp [client_query, execute_q, hE, hR]
  · intro hdl st2 tr e hE hR
    simp [facade_query, client_query, execute_q, hE, hR]

/-- Witness for `C7_verbatim_uniform_error`: a rejected statement on a
read-only local client surfaces once, wrapped, with the engine message. -/
theorem C7_verbatim_uniform_error_witness :
    client_query (mk_client_state "local.db" DBType.duckdb true none) 0 true (.ok 42)
      (fun _ => .ok none) (fun _ _ => .error "Parser Error: syntax error")
      "SELEC 1" =
      (.error ("❌ Error executing query: " ++ "Parser Error: syntax error"),
        mk_client_state "local.db" DBType.duckdb true none,
        ⟨true, [42], ["SELEC 1"]⟩) :=
  (C7_verbatim_uniform_error (mk_client_state "local.db" DBType.duckdb true none) 0
    true (.ok 42) (fun _ => .ok none)
    (fun _ _ => .error "Parser Error: syntax error") "SELEC 1").2.2.1 42
    (mk_client_state "local.db" DBType.duckdb true none) ⟨true, false, false, 0, []⟩
    "Parser Error: syntax error" rfl rfl

/-- C10: in local read-only mode the stored connection field is the `None`
sentinel after construction (`_initialize_connection` discards the probe
handle) and the whole client state — connection field, resolved path,
storage kind, retry and interval settings — is unchanged by every query
call, which uses only its own freshly opened handle. -/
theorem C10_readonly_frame (st : ClientState) (hconn : st.conn = none) :
    (∀ now probeOk ephConnect connect run q,
      (client_query st now probeOk ephConnect connect run q).2.1 = st) ∧
    (∀ h0, init_conn DBType.duckdb true (.ok h0) = .ok none) := by
  constructor
  · intro now probeOk ephConnect connect run q
    rcases ephConnect with e | hdl
    · simp [client_query, execute_q, ensure_connection, hconn]
    · have hens : ensure_connection st now probeOk (.ok hdl) connect =
          (.ok (some hdl), st, ⟨true, false, false, 0, []⟩) := by
        simp [ensure_connection, hconn]
      rcases hR : run hdl q with e | out <;>
        simp [client_query, execute_q, hens, hR]
  · intro h0
    simp [init_conn]

/-- Witness for `C10_readonly_frame`: one successful query on a read-only
local client leaves the state identical, and construction keeps no handle. -/
theorem C10_readonly_frame_witness :
    (client_query (mk_client_state "local.db" DBType.duckdb true none) 5 true
      (.ok 1) (fun _ => .ok none) (fun _ _ => .ok "table") "SELECT 1").2.1 =
      mk_client_state "local.db" DBType.duckdb true none ∧
    init_conn DBType.duckdb true (.ok 3) = .ok none := by
  have h := C10_readonly_frame (mk_client_state "local.db" DBType.duckdb true none) rfl
  exact ⟨h.1 5 true (.ok 1) (fun _ => .ok none) (fun _ _ => .ok "table") "SELECT 1",
    h.2 3⟩
